import Mathlib

/-!
Shallow embedding of the subscription backend in src/server.js
(checkout-session creation, subscription status check, cancellation and
the Stripe webhook handler), together with theorems settling the frozen
claims about it.  Each handler is translated from the source: a Firestore
document update with dotted field paths becomes a record-update function,
the document store becomes an association list keyed by userId, and the
Stripe RPC surface is passed in as explicit lookup results.
-/

namespace CryptoBackend

/-- JS truthiness of an optional string taken from a request body:
undefined and the empty string are falsy, everything else truthy. -/
def truthy : Option String → Bool
  | none => false
  | some s => !(s == "")

/-- The per-user subscription document as written by server.js
(fields of the nested subscription map; timestamps as Nat millis). -/
structure SubRecord where
  status : String
  tier : String
  stripeSubscriptionId : Option String
  currentPeriodEnd : Option Nat
  cancelAtPeriodEnd : Bool
  pendingUpgrade : Bool
  checkoutSessionId : Option String
  canceledAt : Option Nat
  endDate : Option Nat
  lastUpdated : Option Nat
  lastChecked : Option Nat
deriving DecidableEq

/-- The Firestore users collection: userId keyed documents. -/
structure Db where
  users : List (String × SubRecord)
deriving DecidableEq

def Db.get (db : Db) (uid : String) : Option SubRecord :=
  (db.users.find? (fun p => p.fst == uid)).map Prod.snd

def Db.set (db : Db) (uid : String) (r : SubRecord) : Db :=
  ⟨db.users.map (fun p => if p.fst == uid then (p.fst, r) else p)⟩

/-- Firestore .update(): merges fields into an existing document and
throws (returns none) when the document does not exist. -/
def Db.update (db : Db) (uid : String) (f : SubRecord → SubRecord) : Option Db :=
  match db.get uid with
  | none => none
  | some r => some (db.set uid (f r))

/-- The Stripe subscription object fields read by server.js. -/
structure StripeSubscription where
  id : String
  status : String
  current_period_end : Nat
  cancel_at_period_end : Bool
  metaUserId : Option String
  metaFirebaseUID : Option String
deriving DecidableEq

/-- Webhook event kinds distinguished by the switch in server.js. -/
inductive StripeEventType where
  | subscriptionCreated
  | subscriptionUpdated
  | subscriptionDeleted
  | otherEvent (name : String)
deriving DecidableEq

/-- A delivered webhook event.  The created field is the event's own
watermark (its causal timestamp); note that server.js never reads it. -/
structure StripeEvent where
  type : StripeEventType
  created : Nat
  object : StripeSubscription
deriving DecidableEq

/-- The Firestore write of the customer.subscription.created/updated
branch (server.js lines 459 to 467). -/
def applySubscriptionEvent (sub : StripeSubscription) (ts : Nat) (r : SubRecord) : SubRecord :=
  { r with
    status := sub.status
    tier := "pro"
    stripeSubscriptionId := some sub.id
    currentPeriodEnd := some (sub.current_period_end * 1000)
    cancelAtPeriodEnd := sub.cancel_at_period_end
    lastUpdated := some ts
    pendingUpgrade := false }

/-- The Firestore write of the customer.subscription.deleted branch
(server.js lines 485 to 492). -/
def applySubscriptionDeleted (ts : Nat) (r : SubRecord) : SubRecord :=
  { r with
    status := "inactive"
    tier := "basic"
    stripeSubscriptionId := none
    currentPeriodEnd := none
    cancelAtPeriodEnd := false
    lastUpdated := some ts }

/-- userId resolution in the created/updated branch: metadata.userId,
else metadata.firebaseUID, else the checkout session client_reference_id
fetched for the subscription (server.js lines 425 to 440). -/
def resolveWebhookUserId (sub : StripeSubscription) (sessionClientRef : Option String) :
    Option String :=
  if truthy sub.metaUserId then sub.metaUserId
  else if truthy sub.metaFirebaseUID then sub.metaFirebaseUID
  else if truthy sessionClientRef then sessionClientRef
  else none

/-- Result of processing a verified event inside the inner try of the
webhook handler: new store state, number of successful document writes,
and whether processing threw (the thrown error is reported in the body). -/
def processEvent (db : Db) (ev : StripeEvent) (sessionClientRef : Option String) (ts : Nat) :
    Db × Nat × Bool :=
  match ev.type with
  | .subscriptionCreated | .subscriptionUpdated =>
    match resolveWebhookUserId ev.object sessionClientRef with
    | none => (db, 0, true)
    | some uid =>
      match db.update uid (applySubscriptionEvent ev.object ts) with
      | some db2 => (db2, 1, false)
      | none => (db, 0, true)
  | .subscriptionDeleted =>
    match (if truthy ev.object.metaFirebaseUID then ev.object.metaFirebaseUID else none) with
    | none => (db, 0, true)
    | some uid =>
      match db.update uid (applySubscriptionDeleted ts) with
      | some db2 => (db2, 1, false)
      | none => (db, 0, true)
  | .otherEvent _ => (db, 0, false)

/-- Response of POST /webhook: HTTP status, whether the body carried
received true, whether an error message was included in the body, the
store state afterwards, and the successful document write count. -/
structure WebhookOutcome where
  httpStatus : Nat
  received : Bool
  bodyError : Bool
  db : Db
  storeWrites : Nat
deriving DecidableEq

/-- POST /webhook (server.js lines 404 to 516): signature verification
first (400 on failure, before any store access); once verified, the
switch runs inside a try whose catch still responds 200 received true
with the error only in the body. -/
def handleWebhook (db : Db) (sigValid : Bool) (ev : StripeEvent)
    (sessionClientRef : Option String) (ts : Nat) : WebhookOutcome :=
  if sigValid = false then
    ⟨400, false, true, db, 0⟩
  else
    match processEvent db ev sessionClientRef ts with
    | (db2, w, err) => ⟨200, true, err, db2, w⟩

/-- The fixed PRICE_IDS constant of server.js. -/
def PRICE_IDS : List (String × String) :=
  [("monthly", "price_1QMtsECcFkjlkIFGAmSwTHbX"),
   ("annual", "price_1QMttrCcFkjlkIFGQ3sSV7I0")]

/-- Object.values(PRICE_IDS), the allow-list checked by the handler. -/
def validPriceIds : List String := PRICE_IDS.map Prod.snd

structure CheckoutRequest where
  priceId : Option String
  userId : Option String
  email : Option String
deriving DecidableEq

/-- Response of POST /create-checkout-session, with a flag recording
whether stripe.checkout.sessions.create was reached. -/
structure CheckoutOutcome where
  httpStatus : Nat
  providerSessionCreated : Bool
  sessionIdInBody : Option String
  db : Db
  storeWrites : Nat
deriving DecidableEq

/-- The Firestore write after a checkout session is created
(server.js lines 191 to 196): pendingUpgrade, checkoutSessionId and
lastUpdated only; the status field is not part of the update. -/
def applyCheckoutPending (sessionId : String) (ts : Nat) (r : SubRecord) : SubRecord :=
  { r with
    pendingUpgrade := true
    checkoutSessionId := some sessionId
    lastUpdated := some ts }

/-- POST /create-checkout-session (server.js lines 131 to 211):
missing-field check, allow-list check, provider session creation, then
the Firestore update (a missing user document throws, giving 500 after
the provider call already happened). -/
def createCheckoutSession (db : Db) (req : CheckoutRequest) (newSessionId : String)
    (ts : Nat) : CheckoutOutcome :=
  if (truthy req.priceId && truthy req.userId && truthy req.email) = false then
    ⟨400, false, none, db, 0⟩
  else
    match req.priceId, req.userId with
    | some p, some uid =>
      if validPriceIds.contains p = false then
        ⟨400, false, none, db, 0⟩
      else
        match db.update uid (applyCheckoutPending newSessionId ts) with
        | some db2 => ⟨200, true, some newSessionId, db2, 1⟩
        | none => ⟨500, true, none, db, 0⟩
    | _, _ => ⟨400, false, none, db, 0⟩

/-- Stripe lookup results seen by POST /check-subscription-status:
the customer found by firebaseUID metadata search, and the first active
subscription listed for that customer. -/
structure CheckEnv where
  customerId : Option String
  activeSubscription : Option StripeSubscription
deriving DecidableEq

structure CheckOutcome where
  httpStatus : Nat
  activeInBody : Option Bool
  db : Db
  storeWrites : Nat
deriving DecidableEq

/-- The active-subscription write of the status check
(server.js lines 252 to 258). -/
def applyStatusCheckActive (sub : StripeSubscription) (ts : Nat) (r : SubRecord) : SubRecord :=
  { r with
    status := "active"
    tier := "pro"
    stripeSubscriptionId := some sub.id
    currentPeriodEnd := some (sub.current_period_end * 1000)
    lastChecked := some ts }

/-- The no-active-subscription write of the status check
(server.js lines 270 to 274): note stripeSubscriptionId is not touched. -/
def applyStatusCheckInactive (ts : Nat) (r : SubRecord) : SubRecord :=
  { r with
    status := "inactive"
    tier := "basic"
    lastChecked := some ts }

/-- POST /check-subscription-status (server.js lines 214 to 289). -/
def checkSubscriptionStatus (db : Db) (userId : Option String) (env : CheckEnv)
    (ts : Nat) : CheckOutcome :=
  if truthy userId = false then ⟨400, none, db, 0⟩
  else
    match userId with
    | none => ⟨400, none, db, 0⟩
    | some uid =>
      match db.get uid with
      | none => ⟨404, none, db, 0⟩
      | some _ =>
        match env.customerId, env.activeSubscription with
        | some _, some sub =>
          match db.update uid (applyStatusCheckActive sub ts) with
          | some db2 => ⟨200, some true, db2, 1⟩
          | none => ⟨500, none, db, 0⟩
        | _, _ =>
          match db.update uid (applyStatusCheckInactive ts) with
          | some db2 => ⟨200, some false, db2, 1⟩
          | none => ⟨500, none, db, 0⟩

structure CancelRequest where
  email : Option String
  userId : Option String
deriving DecidableEq

/-- Stripe lookup results seen by POST /cancel-subscription: the first
customer listed for the request email, the customer found by firebaseUID
metadata search, and the first active subscription per customer id. -/
structure CancelEnv where
  customerByEmail : Option String
  customerByUID : Option String
  activeSubs : List (String × StripeSubscription)
deriving DecidableEq

def CancelEnv.activeSubFor (env : CancelEnv) (c : String) : Option StripeSubscription :=
  (env.activeSubs.find? (fun p => p.fst == c)).map Prod.snd

/-- Customer resolution order of the cancel handler (server.js lines
310 to 326): email lookup first, firebaseUID metadata search only as a
fallback when the email lookup found nothing and a userId was sent. -/
def resolveCancelCustomer (env : CancelEnv) (req : CancelRequest) : Option String :=
  match env.customerByEmail with
  | some c => some c
  | none => if truthy req.userId then env.customerByUID else none

/-- Response of POST /cancel-subscription; providerCancelled holds the
id of the subscription on which stripe.subscriptions.update was called
with cancel_at_period_end true. -/
structure CancelOutcome where
  httpStatus : Nat
  providerCancelled : Option String
  db : Db
  storeWrites : Nat
deriving DecidableEq

/-- The conditional Firestore write of the cancel handler (server.js
lines 362 to 368): status and cancelAtPeriodEnd, but no tier. -/
def applyCancelWrite (ts : Nat) (periodEndMs : Nat) (r : SubRecord) : SubRecord :=
  { r with
    status := "cancelled"
    cancelAtPeriodEnd := true
    canceledAt := some ts
    endDate := some periodEndMs }

/-- POST /cancel-subscription (server.js lines 292 to 398): requires
email, resolves the customer (email first), 404 without customer or
active subscription, cancels at the provider, then writes Firestore only
when a userId was sent. -/
def cancelSubscription (db : Db) (env : CancelEnv) (req : CancelRequest)
    (ts : Nat) : CancelOutcome :=
  if truthy req.email = false then ⟨400, none, db, 0⟩
  else
    match resolveCancelCustomer env req with
    | none => ⟨404, none, db, 0⟩
    | some c =>
      match env.activeSubFor c with
      | none => ⟨404, none, db, 0⟩
      | some sub =>
        if truthy req.userId = false then ⟨200, some sub.id, db, 0⟩
        else
          match req.userId with
          | some uid =>
            match db.update uid (applyCancelWrite ts (sub.current_period_end * 1000)) with
            | some db2 => ⟨200, some sub.id, db2, 1⟩
            | none => ⟨500, some sub.id, db, 0⟩
          | none => ⟨200, some sub.id, db, 0⟩

/-! Concrete fixtures used by the counterexample and failing-input
theorems below. -/

/-- A user document holding the zero state (basic, inactive). -/
def rec0 : SubRecord :=
  ⟨"inactive", "basic", none, none, false, false, none, none, none, none, none⟩

def db0 : Db := ⟨[("u1", rec0)]⟩

/-- Fresh subscription state: watermark 20, period end 2000. -/
def subNew : StripeSubscription :=
  ⟨"sub_x", "active", 2000, false, some "u1", some "u1"⟩

/-- Stale subscription state: watermark 10, period end 1000. -/
def subOld : StripeSubscription :=
  ⟨"sub_x", "active", 1000, false, some "u1", some "u1"⟩

def evNew : StripeEvent := ⟨.subscriptionUpdated, 20, subNew⟩

def evOld : StripeEvent := ⟨.subscriptionUpdated, 10, subOld⟩

def dbAfterNew : Db := (handleWebhook db0 true evNew none 7).db

def dbAfterNewThenOld : Db := (handleWebhook dbAfterNew true evOld none 7).db

def dbAfterOld : Db := (handleWebhook db0 true evOld none 7).db

def dbAfterOldThenNew : Db := (handleWebhook dbAfterOld true evNew none 7).db

/-- Subscription event whose provider-reported status is past_due. -/
def subPastDue : StripeSubscription :=
  ⟨"sub_x", "past_due", 3000, false, some "u1", some "u1"⟩

def evPastDue : StripeEvent := ⟨.subscriptionUpdated, 30, subPastDue⟩

def dbAfterPastDue : Db := (handleWebhook db0 true evPastDue none 7).db

/-- Cancel-path environment: customer cus_1 found by email, holding the
active subscription sub_x. -/
def cancelEnv0 : CancelEnv := ⟨some "cus_1", none, [("cus_1", subNew)]⟩

/-- Cancel request carrying both email and userId. -/
def cancelReqBoth : CancelRequest := ⟨some "u@example.com", some "u1"⟩

def dbAfterCancel : Db := (cancelSubscription db0 cancelEnv0 cancelReqBoth 7).db

/-- A user document bound to an active subscription sub_x. -/
def recActive : SubRecord :=
  ⟨"active", "pro", some "sub_x", some 2000000, false, false, none, none, none, none, none⟩

def dbActive : Db := ⟨[("u1", recActive)]⟩

/-- Pull-path status check that finds no active subscription for u1. -/
def checkNoneOutcome : CheckOutcome :=
  checkSubscriptionStatus dbActive (some "u1") ⟨none, none⟩ 7

/-- C1: the claim says an incoming update whose watermark is older than
the one the record absorbed is rejected without mutation.  The code has
no watermark comparison at all: after u1 absorbed the event with
watermark 20, the event with watermark 10 is still applied and
overwrites the record with the older state. -/
theorem stale_webhook_event_still_mutates_record :
    evOld.created < evNew.created ∧
    dbAfterNewThenOld ≠ dbAfterNew ∧
    (handleWebhook dbAfterNew true evOld none 7).storeWrites = 1 ∧
    Db.get dbAfterNewThenOld "u1" =
      some (applySubscriptionEvent subOld 7 (applySubscriptionEvent subNew 7 rec0)) := by
  decide

/-- C2: the claim says applying two updates with watermarks 10 and 20 in
either arrival order ends in the state of watermark 20.  In the code the
last arrival wins: the order new-then-old ends with the old event's
period end 1000000, so the two orders end in different states. -/
theorem webhook_application_order_dependent :
    evOld.created < evNew.created ∧
    (Db.get dbAfterOldThenNew "u1").map SubRecord.currentPeriodEnd = some (some 2000000) ∧
    (Db.get dbAfterNewThenOld "u1").map SubRecord.currentPeriodEnd = some (some 1000000) ∧
    dbAfterOldThenNew ≠ dbAfterNewThenOld := by
  decide

/-- C3: the claim says tier = pro iff status is active or canceling
after every write, and tier is never written independently of status.
The created/updated webhook branch writes tier pro while copying the
provider status verbatim, giving status past_due with tier pro; and the
cancel path writes status cancelled without writing tier, leaving tier
basic next to status cancelled. -/
theorem tier_written_independently_of_status :
    (Db.get dbAfterPastDue "u1").map (fun r => (r.status, r.tier)) =
      some ("past_due", "pro") ∧
    (Db.get dbAfterCancel "u1").map (fun r => (r.status, r.tier)) =
      some ("cancelled", "basic") := by
  decide

/-- C4: the claim says the no-active-subscription pull write leaves
remoteSubscriptionId null.  The code's inactive write touches only
status, tier and lastChecked, so a record previously bound to sub_x
keeps the binding while status becomes inactive. -/
theorem inactive_status_check_keeps_subscription_id :
    checkNoneOutcome.httpStatus = 200 ∧
    (Db.get checkNoneOutcome.db "u1").map (fun r => (r.status, r.stripeSubscriptionId)) =
      some ("inactive", some "sub_x") := by
  decide

/-- C6: once signature verification succeeds the webhook endpoint
responds 200 with received true for every event, including the paths
where processing throws (missing binding or missing user document),
where the error is reported in the body only. -/
theorem verified_webhook_always_acknowledged_200 (db : Db) (ev : StripeEvent)
    (sessionClientRef : Option String) (ts : Nat) :
    (handleWebhook db true ev sessionClientRef ts).httpStatus = 200 ∧
    (handleWebhook db true ev sessionClientRef ts).received = true := by
  unfold handleWebhook
  constructor <;> rfl

/-- C9: a push event that fails signature verification is answered 400
and the store is never touched: zero writes and an unchanged store. -/
theorem invalid_signature_rejected_no_writes (db : Db) (ev : StripeEvent)
    (sessionClientRef : Option String) (ts : Nat) :
    (handleWebhook db false ev sessionClientRef ts).httpStatus = 400 ∧
    (handleWebhook db false ev sessionClientRef ts).storeWrites = 0 ∧
    (handleWebhook db false ev sessionClientRef ts).db = db := by
  exact ⟨rfl, rfl, rfl⟩

/-- C5: a checkout-intent request whose priceId is not in the fixed
allow-list (including a missing one) is answered 400 and the provider
checkout-session creation call is never reached; the store is untouched. -/
theorem invalid_priceId_rejected_before_provider (db : Db) (req : CheckoutRequest)
    (newSessionId : String) (ts : Nat)
    (h : ∀ p, req.priceId = some p → validPriceIds.contains p = false) :
    (createCheckoutSession db req newSessionId ts).httpStatus = 400 ∧
    (createCheckoutSession db req newSessionId ts).providerSessionCreated = false ∧
    (createCheckoutSession db req newSessionId ts).db = db := by
  rcases req with ⟨pid, uid, em⟩
  cases hg : (truthy pid && truthy uid && truthy em) with
  | false => simp [createCheckoutSession, hg]
  | true =>
    cases pid with
    | none => simp [truthy] at hg
    | some p =>
      cases uid with
      | none => simp [truthy] at hg
      | some u =>
        have hc : validPriceIds.contains p = false := h p rfl
        have hm : p ∉ validPriceIds := by simpa using hc
        simp [createCheckoutSession, hg, hc, hm]

/-- Witness for C5: the concrete request with an unlisted priceId. -/
theorem invalid_priceId_rejected_witness :
    (createCheckoutSession db0 ⟨some "price_bogus", some "u1", some "u@example.com"⟩
        "cs_1" 7).httpStatus = 400 ∧
    (createCheckoutSession db0 ⟨some "price_bogus", some "u1", some "u@example.com"⟩
        "cs_1" 7).providerSessionCreated = false ∧
    (createCheckoutSession db0 ⟨some "price_bogus", some "u1", some "u@example.com"⟩
        "cs_1" 7).db = db0 :=
  invalid_priceId_rejected_before_provider db0
    ⟨some "price_bogus", some "u1", some "u@example.com"⟩ "cs_1" 7
    (by intro p hp; cases hp; decide)

/-- Setting a key that is present in the store makes a later get of that
key return the new value. -/
theorem Db.get_set_self (db : Db) (uid : String) (v : SubRecord)
    (h : db.get uid ≠ none) : (db.set uid v).get uid = some v := by
  rcases db with ⟨users⟩
  simp only [Db.get, Db.set] at h ⊢
  induction users with
  | nil => simp [List.find?] at h
  | cons a tl ih =>
    by_cases hk : (a.fst == uid) = true
    · simp [List.find?, hk]
    · have hk' : (a.fst == uid) = false := by simpa using hk
      simp only [List.find?, hk'] at h
      simp only [List.map_cons]
      rw [show (if a.fst == uid then (a.fst, v) else a) = a by simp [hk']]
      simp only [List.find?, hk']
      exact ih h

/-- Request carrying the configured monthly price for user u1. -/
def checkoutReqOk : CheckoutRequest :=
  ⟨some "price_1QMtsECcFkjlkIFGAmSwTHbX", some "u1", some "u@example.com"⟩

def checkoutOutcome0 : CheckoutOutcome := createCheckoutSession db0 checkoutReqOk "cs_123" 7

/-- Counterexample for C7: a successful checkout-intent creation leaves
the status field exactly as it was (inactive here), never pending; only
the pendingUpgrade flag and checkoutSessionId are written. -/
theorem checkout_success_leaves_status_unwritten :
    checkoutOutcome0.httpStatus = 200 ∧
    checkoutOutcome0.providerSessionCreated = true ∧
    (Db.get checkoutOutcome0.db "u1").map SubRecord.status = some "inactive" ∧
    (Db.get checkoutOutcome0.db "u1").map SubRecord.status ≠ some "pending" := by
  decide

/-- C7 (amended): a successful checkout-intent creation writes
pendingUpgrade true and checkoutSessionId equal to the new session id,
merged into the existing record, so every other field including status
keeps its previous value. -/
theorem checkout_success_sets_pending_marker (db : Db) (p uid em sid : String) (ts : Nat)
    (r : SubRecord) (hp : p ≠ "") (hu : uid ≠ "") (he : em ≠ "")
    (hv : validPriceIds.contains p = true) (hr : db.get uid = some r) :
    (createCheckoutSession db ⟨some p, some uid, some em⟩ sid ts).httpStatus = 200 ∧
    (createCheckoutSession db ⟨some p, some uid, some em⟩ sid ts).providerSessionCreated
      = true ∧
    Db.get (createCheckoutSession db ⟨some p, some uid, some em⟩ sid ts).db uid =
      some { r with
              pendingUpgrade := true
              checkoutSessionId := some sid
              lastUpdated := some ts } := by
  have hg : (truthy (some p) && truthy (some uid) && truthy (some em)) = true := by
    simp [truthy, hp, hu, he]
  have hm : p ∈ validPriceIds := by simpa using hv
  have hupd : db.update uid (applyCheckoutPending sid ts) =
      some (db.set uid (applyCheckoutPending sid ts r)) := by
    simp [Db.update, hr]
  refine ⟨?_, ?_, ?_⟩ <;>
    simp only [createCheckoutSession, hg, hupd] <;>
    simp [hm, applyCheckoutPending]
  exact Db.get_set_self db uid _ (by simp [hr])

/-- Witness for the amended C7 at the concrete monthly-plan request. -/
theorem checkout_pending_marker_witness :
    (createCheckoutSession db0 checkoutReqOk "cs_123" 7).httpStatus = 200 ∧
    (createCheckoutSession db0 checkoutReqOk "cs_123" 7).providerSessionCreated = true ∧
    Db.get (createCheckoutSession db0 checkoutReqOk "cs_123" 7).db "u1" =
      some { rec0 with
              pendingUpgrade := true
              checkoutSessionId := some "cs_123"
              lastUpdated := some 7 } :=
  checkout_success_sets_pending_marker db0 "price_1QMtsECcFkjlkIFGAmSwTHbX" "u1"
    "u@example.com" "cs_123" 7 rec0 (by decide) (by decide) (by decide) (by decide)
    (by decide)

/-- Cancel-path environment where the customer is only findable through
the firebaseUID metadata search, not by email. -/
def cancelEnvUID : CancelEnv := ⟨none, some "cus_1", [("cus_1", subNew)]⟩

/-- Counterexample for C8: a cancellation request supplying a userId but
no email is rejected 400 (missing email) even though the customer and an
active subscription are resolvable through the userId binding. -/
theorem cancel_userId_without_email_gets_400 :
    cancelSubscription db0 cancelEnvUID ⟨none, some "u1"⟩ 7 =
      ⟨400, none, db0, 0⟩ := by
  decide

/-- C8 (amended): cancellation requires an email: without one the
request gets a missing-field 400 before any lookup, userId or not.  With
an email, the customer is resolved by the email lookup first and by the
userId metadata search only as a fallback when the email lookup finds
nothing; the outcome is then 404 without customer or active
subscription, and otherwise the provider subscription is cancelled and
200 is returned (500 only if the subsequent local write throws). -/
theorem cancel_requires_email_and_resolves_email_first
    (db : Db) (env : CancelEnv) (req : CancelRequest) (ts : Nat) :
    (truthy req.email = false →
      cancelSubscription db env req ts = ⟨400, none, db, 0⟩) ∧
    (∀ c, truthy req.email = true → env.customerByEmail = some c →
      env.activeSubFor c = none →
      cancelSubscription db env req ts = ⟨404, none, db, 0⟩) ∧
    (∀ c sub, truthy req.email = true → env.customerByEmail = some c →
      env.activeSubFor c = some sub →
      (cancelSubscription db env req ts).providerCancelled = some sub.id ∧
      ((cancelSubscription db env req ts).httpStatus = 200 ∨
        (cancelSubscription db env req ts).httpStatus = 500)) ∧
    (truthy req.email = true → env.customerByEmail = none →
      truthy req.userId = false →
      cancelSubscription db env req ts = ⟨404, none, db, 0⟩) ∧
    (truthy req.email = true → env.customerByEmail = none →
      truthy req.userId = true → env.customerByUID = none →
      cancelSubscription db env req ts = ⟨404, none, db, 0⟩) ∧
    (∀ c sub, truthy req.email = true → env.customerByEmail = none →
      truthy req.userId = true → env.customerByUID = some c →
      env.activeSubFor c = some sub →
      (cancelSubscription db env req ts).providerCancelled = some sub.id) := by
  rcases req with ⟨em, ui⟩
  refine ⟨?_, ?_, ?_, ?_, ?_, ?_⟩
  · intro he
    simp [cancelSubscription, he]
  · intro c he hc hs
    simp [cancelSubscription, resolveCancelCustomer, he, hc, hs]
  · intro c sub he hc hs
    cases hu : truthy ui with
    | false =>
      simp [cancelSubscription, resolveCancelCustomer, he, hc, hs, hu]
    | true =>
      cases ui with
      | none => simp [truthy] at hu
      | some uid =>
        cases hdb : db.update uid (applyCancelWrite ts (sub.current_period_end * 1000)) with
        | none =>
          simp [cancelSubscription, resolveCancelCustomer, he, hc, hs, hu, hdb]
        | some db2 =>
          simp [cancelSubscription, resolveCancelCustomer, he, hc, hs, hu, hdb]
  · intro he hc hu
    simp [cancelSubscription, resolveCancelCustomer, he, hc, hu]
  · intro he hc hu hcu
    simp [cancelSubscription, resolveCancelCustomer, he, hc, hu, hcu]
  · intro c sub he hc hu hcu hs
    cases ui with
    | none => simp [truthy] at hu
    | some uid =>
      cases hdb : db.update uid (applyCancelWrite ts (sub.current_period_end * 1000)) with
      | none =>
        simp [cancelSubscription, resolveCancelCustomer, he, hc, hs, hu, hcu, hdb]
      | some db2 =>
        simp [cancelSubscription, resolveCancelCustomer, he, hc, hs, hu, hcu, hdb]

/-- Witness for the amended C8: with email and userId supplied and the
customer found by email holding subscription sub_x, the provider
cancellation is issued on sub_x. -/
theorem cancel_email_first_witness :
    (cancelSubscription db0 cancelEnv0 cancelReqBoth 7).providerCancelled =
      some subNew.id ∧
    ((cancelSubscription db0 cancelEnv0 cancelReqBoth 7).httpStatus = 200 ∨
      (cancelSubscription db0 cancelEnv0 cancelReqBoth 7).httpStatus = 500) :=
  (cancel_requires_email_and_resolves_email_first db0 cancelEnv0 cancelReqBoth 7).2.2.1
    "cus_1" subNew (by decide) rfl (by decide)

/-- C10: a cancellation request with an email resolving to a customer
with an active subscription but no userId cancels the subscription at
the provider and returns 200 while performing no local write: the store
is returned untouched. -/
theorem cancel_email_only_no_local_write (db : Db) (env : CancelEnv) (req : CancelRequest)
    (ts : Nat) (c : String) (sub : StripeSubscription)
    (he : truthy req.email = true) (hu : truthy req.userId = false)
    (hc : env.customerByEmail = some c) (hs : env.activeSubFor c = some sub) :
    cancelSubscription db env req ts = ⟨200, some sub.id, db, 0⟩ := by
  simp [cancelSubscription, resolveCancelCustomer, he, hu, hc, hs]

/-- Witness for C10 at a concrete email-only request. -/
theorem cancel_email_only_no_local_write_witness :
    cancelSubscription db0 cancelEnv0 ⟨some "u@example.com", none⟩ 7 =
      ⟨200, some "sub_x", db0, 0⟩ :=
  cancel_email_only_no_local_write db0 cancelEnv0 ⟨some "u@example.com", none⟩ 7
    "cus_1" subNew (by decide) (by decide) rfl (by decide)

end CryptoBackend
